import Mathlib

/-!
Shallow embedding of the binding-resolver constructs of this repository:
the EventBus rule target, the HTTP API integration, and the CloudFront
origin request policy.  Pure field mappings become Lean functions; the
shared principal/capability side table becomes explicit state passing.
-/

namespace AwsCdk

/-! ## IAM primitives and the capability side table -/

/-- A capability grant: an action set over a resource set
(mirrors iam.PolicyStatement as used in this repository). -/
structure PolicyStatement where
  actions : List String
  resources : List String
deriving DecidableEq, Repr

/-- A reference to a principal (an iam.IRole): downstream consumers refer
to a role by reference, so only its identity matters here. -/
structure RoleRef where
  roleId : String
deriving DecidableEq, Repr

/-- The shared side table recording which capability statements are
attached to which principal. -/
abbrev SideTable := List (RoleRef × PolicyStatement)

/-- Modelled from the spec: the implementation of iam role addToPolicy is
not part of the excerpted sources (only its callers are).  The spec says
the side table "uses last-writer-wins merge semantics for repeated
identical grants (add-if-absent, never remove)", so attaching a statement
to a principal adds the (principal, statement) pair only if absent. -/
def addToPolicy (tbl : SideTable) (r : RoleRef) (s : PolicyStatement) : SideTable :=
  if (r, s) ∈ tbl then tbl else tbl ++ [(r, s)]

/-- Number of copies of a given capability statement attached to a given
principal in the side table. -/
def stmtCount (tbl : SideTable) (r : RoleRef) (s : PolicyStatement) : Nat :=
  (tbl.filter (fun p => p = (r, s))).length

/-- The per-scope state threaded through bind calls: the lazily created
singleton principal for the scope, plus the capability side table. -/
structure ScopeState where
  singletonRole : Option RoleRef
  table : SideTable
deriving DecidableEq, Repr

/-- The fresh state of a scope with no synthesized principal and an empty
side table. -/
def emptyScope : ScopeState := { singletonRole := none, table := [] }

/-- The deterministic identity of the singleton events role of a scope. -/
def scopeRoleId (scopeId : String) : String := scopeId ++ "/EventsRole"

/-- Modelled from the spec: singletonEventRole lives in util.ts, which is
not part of the excerpted sources.  The spec requires it to "synthesize
exactly one principal shared across all bindings requesting the same
scope, attaching the minimal-required capability statement": if the scope
already holds a singleton role it is returned untouched, otherwise one is
created and the supplied statements are attached to it. -/
def singletonEventRole (scopeId : String) (stmts : List PolicyStatement)
    (st : ScopeState) : RoleRef × ScopeState :=
  match st.singletonRole with
  | some r => (r, st)
  | none =>
    let r : RoleRef := { roleId := scopeRoleId scopeId }
    (r, { singletonRole := some r,
          table := stmts.foldl (fun t s => addToPolicy t r s) st.table })

/-! ## EventBus rule target (src/unnamed/part_000) -/

/-- Configuration properties of an Event Bus event. -/
structure EventBusProps where
  eventBusArn : String
  role : Option RoleRef
deriving DecidableEq, Repr

/-- The EventBus rule target: the constructor copies the two fields of
the properties object verbatim. -/
structure EventBus where
  eventBusArn : String
  role : Option RoleRef
deriving DecidableEq, Repr

/-- The EventBus constructor: this.eventBusArn = props.eventBusArn and
this.role = props.role. -/
def EventBus.ofProps (props : EventBusProps) : EventBus :=
  { eventBusArn := props.eventBusArn, role := props.role }

/-- putEventStatement: a statement with actions [events:PutEvents] and
resources [this.eventBusArn]. -/
def EventBus.putEventStatement (t : EventBus) : PolicyStatement :=
  { actions := ["events:PutEvents"], resources := [t.eventBusArn] }

/-- The configuration fragment returned by bind (events.RuleTargetConfig,
restricted to the fields the source populates). -/
structure RuleTargetConfig where
  id : String
  arn : String
  role : RoleRef
deriving DecidableEq, Repr

/-- EventBus.bind: if an explicit role was supplied, attach the
putEventStatement to it; the returned role is the explicit role when
present and the singleton events role of the scope otherwise.  The id
argument is optional and the source computes the field by JS truthiness
(the empty string is falsy), so an absent or empty id yields the empty
string. -/
def EventBus.bind (t : EventBus) (ruleScopeId : String) (id : Option String)
    (st : ScopeState) : RuleTargetConfig × ScopeState :=
  let st1 : ScopeState :=
    match t.role with
    | some r => { st with table := addToPolicy st.table r t.putEventStatement }
    | none => st
  let roleAndState : RoleRef × ScopeState :=
    match t.role with
    | some r => (r, st1)
    | none => singletonEventRole ruleScopeId [t.putEventStatement] st1
  ({ id := match id with
           | some s => if s = "" then "" else s
           | none => ""
     arn := t.eventBusArn
     role := roleAndState.1 }, roleAndState.2)

/-! ## HTTP API integration (src/unnamed/part_002) -/

/-- Supported integration types with their wire strings. -/
inductive HttpIntegrationType where
  | LAMBDA_PROXY
  | HTTP_PROXY
deriving DecidableEq, Repr, Fintype

/-- The literal wire string of each integration type tag. -/
def HttpIntegrationType.wire : HttpIntegrationType → String
  | .LAMBDA_PROXY => "AWS_PROXY"
  | .HTTP_PROXY => "HTTP_PROXY"

/-- Supported connection types with their wire strings. -/
inductive HttpConnectionType where
  | VPC_LINK
  | INTERNET
deriving DecidableEq, Repr, Fintype

/-- The literal wire string of each connection type tag. -/
def HttpConnectionType.wire : HttpConnectionType → String
  | .VPC_LINK => "VPC_LINK"
  | .INTERNET => "INTERNET"

/-- Supported integration subtypes with their wire strings. -/
inductive HttpIntegrationSubtype where
  | EVENTBRIDGE_PUTEVENTS
  | SQS_SENDMESSAGE
  | SQS_RECEIVEMESSAGE
  | SQS_DELETEMESSAGE
deriving DecidableEq, Repr, Fintype

/-- The literal wire string of each integration subtype tag. -/
def HttpIntegrationSubtype.wire : HttpIntegrationSubtype → String
  | .EVENTBRIDGE_PUTEVENTS => "EventBridge-PutEvents"
  | .SQS_SENDMESSAGE => "SQS-SendMessage"
  | .SQS_RECEIVEMESSAGE => "SQS-ReceiveMessage"
  | .SQS_DELETEMESSAGE => "SQS-DeleteMessage"

/-- Payload format version: a tagged value wrapping a string. -/
structure PayloadFormatVersion where
  version : String
deriving DecidableEq, Repr

/-- Version 1.0. -/
def PayloadFormatVersion.VERSION_1_0 : PayloadFormatVersion :=
  { version := "1.0" }

/-- Version 2.0. -/
def PayloadFormatVersion.VERSION_2_0 : PayloadFormatVersion :=
  { version := "2.0" }

/-- A custom payload version: wraps the supplied string unchanged. -/
def PayloadFormatVersion.custom (v : String) : PayloadFormatVersion :=
  { version := v }

/-- Credentials used for AWS Service integrations: wraps a credential
ARN string. -/
structure IntegrationCredentials where
  credentials : String
deriving DecidableEq, Repr

/-- Use the specified role for integration requests. -/
def IntegrationCredentials.fromRoleArn (roleArn : String) : IntegrationCredentials :=
  { credentials := roleArn }

/-- Use the calling identity to call the integration. -/
def IntegrationCredentials.useCallerIdentity : IntegrationCredentials :=
  { credentials := "arn:aws:iam::*:user/*" }

/-- The integration properties (HttpIntegrationProps); the httpApi field
is represented by the apiId the constructor reads from it, and the
request parameter mapping by a list of key/value pairs. -/
structure HttpIntegrationProps where
  apiId : String
  integrationType : HttpIntegrationType
  integrationSubtype : Option HttpIntegrationSubtype
  integrationUri : Option String
  method : Option String
  connectionId : Option String
  connectionType : Option HttpConnectionType
  credentials : Option IntegrationCredentials
  payloadFormatVersion : Option PayloadFormatVersion
  requestParameters : Option (List (String × String))
deriving DecidableEq, Repr

/-- The configuration record handed to the low-level CfnIntegration
resource, with enum tags already at their wire strings. -/
structure CfnIntegrationProps where
  apiId : String
  integrationType : String
  integrationSubtype : Option String
  integrationUri : Option String
  integrationMethod : Option String
  connectionId : Option String
  connectionType : Option String
  credentialsArn : Option String
  payloadFormatVersion : Option String
  requestParameters : Option (List (String × String))
deriving DecidableEq, Repr

/-- The HttpIntegration constructor body: it unconditionally builds the
CfnIntegration configuration record, field by field, from the properties
object; the source contains no validation and no failure path. -/
def HttpIntegration.construct (props : HttpIntegrationProps) : CfnIntegrationProps :=
  { apiId := props.apiId
    integrationType := props.integrationType.wire
    integrationSubtype := props.integrationSubtype.map HttpIntegrationSubtype.wire
    integrationUri := props.integrationUri
    integrationMethod := props.method
    connectionId := props.connectionId
    connectionType := props.connectionType.map HttpConnectionType.wire
    credentialsArn := props.credentials.map IntegrationCredentials.credentials
    payloadFormatVersion := props.payloadFormatVersion.map PayloadFormatVersion.version
    requestParameters := props.requestParameters }

/-! ## CloudFront origin request policy
(src/packages/@aws-cdk/aws-cloudfront/lib/origin-request-policy.ts) -/

/-- Cookie forwarding behavior tags. -/
inductive CookiesCacheBehaviorType where
  | NONE
  | WHITELIST
  | ALL
deriving DecidableEq, Repr, Fintype

/-- The literal wire string of each cookie behavior tag. -/
def CookiesCacheBehaviorType.wire : CookiesCacheBehaviorType → String
  | .NONE => "none"
  | .WHITELIST => "whitelist"
  | .ALL => "all"

/-- Header forwarding behavior tags. -/
inductive HeadersCacheBehaviorType where
  | NONE
  | WHITELIST
  | ALL_VIEWER
  | ALL_VIEWER_AND_WHITELIST_CLOUDFRONT
deriving DecidableEq, Repr, Fintype

/-- The literal wire string of each header behavior tag. -/
def HeadersCacheBehaviorType.wire : HeadersCacheBehaviorType → String
  | .NONE => "none"
  | .WHITELIST => "whitelist"
  | .ALL_VIEWER => "allViewer"
  | .ALL_VIEWER_AND_WHITELIST_CLOUDFRONT => "allViewerAndWhitelistCloudFront"

/-- Query string forwarding behavior tags. -/
inductive QueryStringCacheBehaviorType where
  | NONE
  | WHITELIST
  | ALL
deriving DecidableEq, Repr, Fintype

/-- The literal wire string of each query string behavior tag. -/
def QueryStringCacheBehaviorType.wire : QueryStringCacheBehaviorType → String
  | .NONE => "none"
  | .WHITELIST => "whitelist"
  | .ALL => "all"

/-- Cookies configuration of an origin request policy. -/
structure CookiesConfig where
  cookieBehavior : CookiesCacheBehaviorType
  cookies : Option (List String)
deriving DecidableEq, Repr

/-- Headers configuration of an origin request policy. -/
structure HeadersConfig where
  headerBehavior : HeadersCacheBehaviorType
  headers : Option (List String)
deriving DecidableEq, Repr

/-- Query strings configuration of an origin request policy. -/
structure QueryStringConfig where
  queryStringBehavior : QueryStringCacheBehaviorType
  queryStrings : Option (List String)
deriving DecidableEq, Repr

/-- Origin request policy properties. -/
structure OriginRequestPolicyProps where
  name : String
  comment : Option String
  cookiesConfig : CookiesConfig
  headersConfig : HeadersConfig
  queryStringsConfig : QueryStringConfig
deriving DecidableEq, Repr

/-- The cookies section of the emitted fragment: exactly a behavior wire
string and an optional name list, nothing else. -/
structure CookiesFragment where
  cookieBehavior : String
  cookies : Option (List String)
deriving DecidableEq, Repr

/-- The headers section of the emitted fragment. -/
structure HeadersFragment where
  headerBehavior : String
  headers : Option (List String)
deriving DecidableEq, Repr

/-- The query strings section of the emitted fragment. -/
structure QueryStringsFragment where
  queryStringBehavior : String
  queryStrings : Option (List String)
deriving DecidableEq, Repr

/-- The originRequestPolicyConfig record handed to the low-level
CfnOriginRequestPolicy resource. -/
structure OriginRequestPolicyFragment where
  name : String
  comment : Option String
  cookiesConfig : CookiesFragment
  headersConfig : HeadersFragment
  queryStringsConfig : QueryStringsFragment
deriving DecidableEq, Repr

/-- Rendering of a cookies configuration: the enum value of the source is
itself its wire string, so the section is passed through with the tag at
its literal string. -/
def renderCookies (c : CookiesConfig) : CookiesFragment :=
  { cookieBehavior := c.cookieBehavior.wire, cookies := c.cookies }

/-- Rendering of a headers configuration. -/
def renderHeaders (c : HeadersConfig) : HeadersFragment :=
  { headerBehavior := c.headerBehavior.wire, headers := c.headers }

/-- Rendering of a query strings configuration. -/
def renderQueryStrings (c : QueryStringConfig) : QueryStringsFragment :=
  { queryStringBehavior := c.queryStringBehavior.wire, queryStrings := c.queryStrings }

/-- The externally visible attributes of an origin request policy
instance. -/
structure OriginRequestPolicyAttrs where
  originRequestPolicyId : String
  lastModifiedTime : String
deriving DecidableEq, Repr

/-- The opaque CloudFormation attribute token returned by attrId of the
low-level resource, as a function of the resource path. -/
def cfnAttrId (path : String) : String := "Token[" ++ path ++ ".Id]"

/-- The result of the OriginRequestPolicy constructor: the fragment
emitted to the low-level resource plus the attributes of the instance.
The class field initializer sets lastModifiedTime to the empty string and
the constructor never reassigns it; originRequestPolicyId is reassigned
to the attrId token of the created resource. -/
structure OriginRequestPolicyResult where
  fragment : OriginRequestPolicyFragment
  attrs : OriginRequestPolicyAttrs
deriving DecidableEq, Repr

/-- The OriginRequestPolicy constructor body. -/
def OriginRequestPolicy.construct (id : String) (props : OriginRequestPolicyProps) :
    OriginRequestPolicyResult :=
  { fragment :=
      { name := props.name
        comment := props.comment
        cookiesConfig := renderCookies props.cookiesConfig
        headersConfig := renderHeaders props.headersConfig
        queryStringsConfig := renderQueryStrings props.queryStringsConfig }
    attrs :=
      { originRequestPolicyId := cfnAttrId (id ++ "/Resource")
        lastModifiedTime := "" } }

/-- OriginRequestPolicy.fromId: the anonymous subclass sets
originRequestPolicyId to the supplied physicalId and lastModifiedTime to
the empty string. -/
def OriginRequestPolicy.fromId (physicalId : String) : OriginRequestPolicyAttrs :=
  { originRequestPolicyId := physicalId, lastModifiedTime := "" }

/-! ## Concrete inputs used by the theorems -/

/-- An HttpIntegrationProps with both integrationSubtype and
integrationUri absent. -/
def propsWithoutSubtypeOrUri : HttpIntegrationProps :=
  { apiId := "api-1"
    integrationType := .HTTP_PROXY
    integrationSubtype := none
    integrationUri := none
    method := none
    connectionId := none
    connectionType := none
    credentials := none
    payloadFormatVersion := none
    requestParameters := none }

/-- The origin request policy properties of the whitelist scenario. -/
def whitelistPolicyProps : OriginRequestPolicyProps :=
  { name := "OriginRequestPolicy"
    comment := some "comment"
    cookiesConfig := { cookieBehavior := .WHITELIST, cookies := some ["x-my-cookie"] }
    headersConfig := { headerBehavior := .WHITELIST, headers := some ["x-my-header"] }
    queryStringsConfig :=
      { queryStringBehavior := .WHITELIST, queryStrings := some ["myQueryString"] } }

/-! ## Theorems -/

/-- C1: the claim says constructing an HttpIntegration with both
integrationSubtype and integrationUri absent fails with a
construction-time error before any fragment is emitted.  The constructor
in the source has no validation: at such an input it succeeds and emits a
complete CfnIntegration fragment with both fields absent, contradicting
the requiredness stated in the props documentation of the source. -/
theorem httpIntegration_construct_succeeds_without_subtype_or_uri :
    HttpIntegration.construct propsWithoutSubtypeOrUri =
      { apiId := "api-1"
        integrationType := "HTTP_PROXY"
        integrationSubtype := none
        integrationUri := none
        integrationMethod := none
        connectionId := none
        connectionType := none
        credentialsArn := none
        payloadFormatVersion := none
        requestParameters := none } := rfl

/-- C2: binding an EventBus target twice against the same scope leaves
exactly one events:PutEvents capability statement on the principal (the
explicit role when supplied, the synthesized singleton role otherwise),
and both binds use the same principal. -/
theorem eventBus_bind_grant_idempotent (t : EventBus) (scopeId : String)
    (id1 id2 : Option String) :
    stmtCount ((t.bind scopeId id2 (t.bind scopeId id1 emptyScope).2).2).table
        ((t.bind scopeId id1 emptyScope).1).role t.putEventStatement = 1 ∧
      ((t.bind scopeId id2 (t.bind scopeId id1 emptyScope).2).1).role =
        ((t.bind scopeId id1 emptyScope).1).role := by
  rcases t with ⟨arn, role⟩
  cases role <;>
    simp [EventBus.bind, EventBus.putEventStatement, singletonEventRole,
      addToPolicy, stmtCount, emptyScope]

/-- C3: with no explicit role, bind synthesizes exactly one principal
(the singleton events role of the scope) and attaches to it exactly one
statement with actions [events:PutEvents] and resources [the supplied
eventBusArn]; with an explicit role, the same statement is attached to
that role and the returned config carries that role. -/
theorem eventBus_bind_grant_shape (arn scopeId : String) (i : Option String)
    (r : RoleRef) :
    (((EventBus.ofProps { eventBusArn := arn, role := none }).bind scopeId i
          emptyScope).1.role = { roleId := scopeRoleId scopeId } ∧
      ((EventBus.ofProps { eventBusArn := arn, role := none }).bind scopeId i
          emptyScope).2.singletonRole = some { roleId := scopeRoleId scopeId } ∧
      ((EventBus.ofProps { eventBusArn := arn, role := none }).bind scopeId i
          emptyScope).2.table =
        [({ roleId := scopeRoleId scopeId },
          { actions := ["events:PutEvents"], resources := [arn] })]) ∧
    (((EventBus.ofProps { eventBusArn := arn, role := some r }).bind scopeId i
          emptyScope).1.role = r ∧
      ((EventBus.ofProps { eventBusArn := arn, role := some r }).bind scopeId i
          emptyScope).2.table =
        [(r, { actions := ["events:PutEvents"], resources := [arn] })]) := by
  refine ⟨⟨?_, ?_, ?_⟩, ?_, ?_⟩ <;>
    simp [EventBus.bind, EventBus.ofProps, EventBus.putEventStatement,
      singletonEventRole, addToPolicy, emptyScope]

/-- C4: every documented enum tag maps to its documented literal wire
string, and no two tags of the same enum share a wire string. -/
theorem enum_wire_strings :
    (CookiesCacheBehaviorType.NONE.wire = "none" ∧
      CookiesCacheBehaviorType.WHITELIST.wire = "whitelist" ∧
      CookiesCacheBehaviorType.ALL.wire = "all") ∧
    (HeadersCacheBehaviorType.NONE.wire = "none" ∧
      HeadersCacheBehaviorType.WHITELIST.wire = "whitelist" ∧
      HeadersCacheBehaviorType.ALL_VIEWER.wire = "allViewer" ∧
      HeadersCacheBehaviorType.ALL_VIEWER_AND_WHITELIST_CLOUDFRONT.wire =
        "allViewerAndWhitelistCloudFront") ∧
    (QueryStringCacheBehaviorType.NONE.wire = "none" ∧
      QueryStringCacheBehaviorType.WHITELIST.wire = "whitelist" ∧
      QueryStringCacheBehaviorType.ALL.wire = "all") ∧
    (HttpIntegrationType.LAMBDA_PROXY.wire = "AWS_PROXY" ∧
      HttpIntegrationType.HTTP_PROXY.wire = "HTTP_PROXY") ∧
    (HttpConnectionType.VPC_LINK.wire = "VPC_LINK" ∧
      HttpConnectionType.INTERNET.wire = "INTERNET") ∧
    (HttpIntegrationSubtype.EVENTBRIDGE_PUTEVENTS.wire = "EventBridge-PutEvents" ∧
      HttpIntegrationSubtype.SQS_SENDMESSAGE.wire = "SQS-SendMessage" ∧
      HttpIntegrationSubtype.SQS_RECEIVEMESSAGE.wire = "SQS-ReceiveMessage" ∧
      HttpIntegrationSubtype.SQS_DELETEMESSAGE.wire = "SQS-DeleteMessage") ∧
    (∀ a b : CookiesCacheBehaviorType, a.wire = b.wire → a = b) ∧
    (∀ a b : HeadersCacheBehaviorType, a.wire = b.wire → a = b) ∧
    (∀ a b : QueryStringCacheBehaviorType, a.wire = b.wire → a = b) ∧
    (∀ a b : HttpIntegrationType, a.wire = b.wire → a = b) ∧
    (∀ a b : HttpConnectionType, a.wire = b.wire → a = b) ∧
    (∀ a b : HttpIntegrationSubtype, a.wire = b.wire → a = b) := by
  decide

/-- C4 witness: the injectivity conjunct applied at a concrete pair of
tags with its hypothesis discharged by evaluation. -/
theorem enum_wire_strings_witness :
    CookiesCacheBehaviorType.WHITELIST.wire = CookiesCacheBehaviorType.WHITELIST.wire ∧
      CookiesCacheBehaviorType.WHITELIST = CookiesCacheBehaviorType.WHITELIST :=
  ⟨rfl,
    enum_wire_strings.2.2.2.2.2.2.1 CookiesCacheBehaviorType.WHITELIST
      CookiesCacheBehaviorType.WHITELIST (by decide)⟩

/-- C5: resolving the same EventBus target twice under the same context
yields identical configuration fragments: the config of the second bind
equals the config of the first, whatever the starting scope state. -/
theorem eventBus_bind_deterministic (t : EventBus) (scopeId : String)
    (i : Option String) (st : ScopeState) :
    (t.bind scopeId i (t.bind scopeId i st).2).1 = (t.bind scopeId i st).1 := by
  rcases t with ⟨arn, role⟩
  rcases st with ⟨sr, tbl⟩
  cases role <;> cases sr <;>
    simp [EventBus.bind, EventBus.putEventStatement, singletonEventRole,
      addToPolicy]

/-- C6: the whitelist cookies scenario: the cookies section of the
fragment emitted by the OriginRequestPolicy constructor is exactly
behavior "whitelist" with names ["x-my-cookie"], and nothing else (the
section record has no further fields). -/
theorem originRequestPolicy_whitelist_cookies_fragment :
    (OriginRequestPolicy.construct "CustomOriginRequestPolicy"
        whitelistPolicyProps).fragment.cookiesConfig =
      { cookieBehavior := "whitelist", cookies := some ["x-my-cookie"] } := rfl

/-- C7: identifier fields pass through verbatim: the arn of the config
returned by EventBus.bind equals the eventBusArn of the properties
object, and the integrationUri handed to the low-level CfnIntegration
resource equals the integrationUri of the properties object. -/
theorem identifier_fields_verbatim (props : EventBusProps) (scopeId : String)
    (i : Option String) (st : ScopeState) (hprops : HttpIntegrationProps) :
    ((EventBus.ofProps props).bind scopeId i st).1.arn = props.eventBusArn ∧
      (HttpIntegration.construct hprops).integrationUri = hprops.integrationUri :=
  ⟨rfl, rfl⟩

/-- C8: PayloadFormatVersion is a tagged value wrapping a string: the
named constants carry "1.0" and "2.0", and the custom constructor
preserves the supplied tag exactly. -/
theorem payloadFormatVersion_tagged_string (v : String) :
    PayloadFormatVersion.VERSION_1_0.version = "1.0" ∧
      PayloadFormatVersion.VERSION_2_0.version = "2.0" ∧
      (PayloadFormatVersion.custom v).version = v :=
  ⟨rfl, rfl, rfl⟩

/-- C9: the id field of the config returned by EventBus.bind equals the
supplied id when it is a non-empty string, and is the empty string when
the argument is absent or empty; being a String it is never undefined. -/
theorem eventBus_bind_id_field (t : EventBus) (scopeId : String) (st : ScopeState) :
    (∀ s : String, s ≠ "" → (t.bind scopeId (some s) st).1.id = s) ∧
      (t.bind scopeId none st).1.id = "" ∧
      (t.bind scopeId (some "") st).1.id = "" := by
  refine ⟨fun s hs => ?_, rfl, rfl⟩
  simp [EventBus.bind, hs]

/-- C9 witness: at a concrete non-empty id the returned id is that
string. -/
theorem eventBus_bind_id_field_witness :
    ("T1" : String) ≠ "" ∧
      ((EventBus.ofProps { eventBusArn := "arn:aws:events:us-east-1:111122223333:event-bus/bus", role := none }).bind
          "Rule" (some "T1") emptyScope).1.id = "T1" :=
  ⟨by decide,
    (eventBus_bind_id_field
        (EventBus.ofProps { eventBusArn := "arn:aws:events:us-east-1:111122223333:event-bus/bus", role := none })
        "Rule" emptyScope).1 "T1" (by decide)⟩

/-- C10: every OriginRequestPolicy instance has lastModifiedTime equal to
the empty string, whether created by the constructor or by fromId, and
fromId sets originRequestPolicyId to exactly the supplied physicalId. -/
theorem originRequestPolicy_lastModifiedTime_empty (id physicalId : String)
    (props : OriginRequestPolicyProps) :
    (OriginRequestPolicy.construct id props).attrs.lastModifiedTime = "" ∧
      (OriginRequestPolicy.fromId physicalId).lastModifiedTime = "" ∧
      (OriginRequestPolicy.fromId physicalId).originRequestPolicyId = physicalId :=
  ⟨rfl, rfl, rfl⟩

end AwsCdk
